import Mathlib

/-!
Shallow embedding of the athena validation-orchestration engine
(`src/athena/atStatus.py`, `src/athena/atCore.py`) and proofs about it.

Conventions used throughout:

* Python float levels are modelled by the inductive `Level` (finite values as
  rationals, plus `posInf`, `negInf` and `nan`), with IEEE-754 comparison
  semantics (`nan` compares false with everything, including itself).
* Python exceptions are modelled with `Except`: a function that can raise
  returns `Except PyErr α`.
* Side-effect traces (which callables were invoked, in order) are modelled as
  explicit lists of events.
-/

/-! ## Status model (`atStatus.py`) -/

/-- Model of a Python float used as a `Status.level`: a finite rational,
an infinity, or `nan`. -/
inductive Level where
  | num (q : ℚ)
  | posInf
  | negInf
  | nan
deriving DecidableEq, Repr

/-- IEEE-754 `==` on levels: `nan` is equal to nothing, including itself. -/
def Level.beq : Level → Level → Bool
  | .nan, _ => false
  | _, .nan => false
  | .posInf, .posInf => true
  | .negInf, .negInf => true
  | .num a, .num b => a == b
  | _, _ => false

/-- IEEE-754 `<` on levels: any comparison with `nan` is false. -/
def Level.blt : Level → Level → Bool
  | .nan, _ => false
  | _, .nan => false
  | .posInf, _ => false
  | .negInf, .negInf => false
  | .negInf, _ => true
  | .num _, .posInf => true
  | .num a, .num b => a < b
  | .num _, .negInf => false

/-- IEEE-754 `>` on levels, `a > b` iff `b < a`. -/
def Level.bgt (a b : Level) : Bool := Level.blt b a

/-- The concrete class of a Status instance: `FailStatus`, `SuccessStatus`
or `_BuiltInStatus` (the three subclasses of `Status` in `atStatus.py`). -/
inductive StatusKind where
  | failStatus
  | successStatus
  | builtInStatus
deriving DecidableEq, Repr

/-- Model of `atStatus.Status`: the concrete subclass it was constructed
through, plus the `_name`, `_color` and `_level` fields set by `__init__`. -/
structure Status where
  kind : StatusKind
  name : String
  color : ℕ × ℕ × ℕ
  level : Level
deriving DecidableEq, Repr

/-- Constructor `FailStatus(name, color, level)`. -/
def FailStatus (name : String) (color : ℕ × ℕ × ℕ) (level : Level) : Status :=
  ⟨.failStatus, name, color, level⟩

/-- Constructor `SuccessStatus(name, color, level)`. -/
def SuccessStatus (name : String) (color : ℕ × ℕ × ℕ) (level : Level) : Status :=
  ⟨.successStatus, name, color, level⟩

/-- Constructor `_BuiltInStatus(name, color, level)`. -/
def BuiltInStatus (name : String) (color : ℕ × ℕ × ℕ) (level : Level) : Status :=
  ⟨.builtInStatus, name, color, level⟩

/-- Source `Status.__eq__`: `self._level == other._level` (float equality). -/
def status_eq (a b : Status) : Bool := Level.beq a.level b.level

/-- Source `Status.__gt__`: `self._level > other._level`. -/
def status_gt (a b : Status) : Bool := Level.bgt a.level b.level

/-- Source `Status.__lt__`: `self._level < other._level`. -/
def status_lt (a b : Status) : Bool := Level.blt a.level b.level

/-- The tuple hashed by `Status.__hash__`:
`hash((self._name, self._color, self._level))`.  Python's `hash` is applied
to this triple, so two statuses whose triples differ hash independently
(equal hashes are not guaranteed), while equal triples hash equal. -/
def status_hash_key (s : Status) : String × (ℕ × ℕ × ℕ) × Level :=
  (s.name, s.color, s.level)

/-- The module-level constant `atStatus.SUCCESS`. -/
def SUCCESS : Status := SuccessStatus "Success" (0, 128, 0) .negInf

/-- The module-level constant `atStatus.ERROR`. -/
def ERROR : Status := FailStatus "Error" (150, 0, 0) .posInf

/-- The module-level constant `atStatus.WARNING`. -/
def WARNING : Status := FailStatus "Warning" (196, 98, 16) (.num 1)

/-- The module-level constant `atStatus._DEFAULT`. -/
def DEFAULT_STATUS : Status := BuiltInStatus "Default" (60, 60, 60) (.num 0)

/-- The module-level constant `atStatus._SKIPPED`. -/
def SKIPPED_STATUS : Status := BuiltInStatus "Skipped" (85, 85, 85) .nan

/-! ## Thread model (`atCore.Thread`) -/

/-- Model of `atCore.Thread`: title, default and active fail/success
statuses (the constructor sets default and active to the same value). -/
structure Thread where
  title : String
  default_fail_status : Status
  fail_status : Status
  default_success_status : Status
  success_status : Status
deriving DecidableEq, Repr

/-- Source `Thread.__init__(title, fail_status, success_status)`: validates the two
statuses with `isinstance`, then sets both the default and the active
statuses to them.  Raises `StatusException` on a wrong status class. -/
def Thread.init (title : String) (fail_status success_status : Status) :
    Except String Thread :=
  if fail_status.kind ≠ .failStatus then
    .error "StatusException: not a valid fail status"
  else if success_status.kind ≠ .successStatus then
    .error "StatusException: not a valid success status"
  else
    .ok ⟨title, fail_status, fail_status, success_status, success_status⟩

/-- Source `Thread.override_fail_status(status)`: replaces the active fail status. -/
def Thread.override_fail_status (t : Thread) (status : Status) : Thread :=
  { t with fail_status := status }

/-- Source `Thread.override_success_status(status)`: replaces the active success
status. -/
def Thread.override_success_status (t : Thread) (status : Status) : Thread :=
  { t with success_status := status }

/-- Source `Thread.status(state)`: the success status if `state`, else the fail
status. -/
def Thread.state_status (t : Thread) (state : Bool) : Status :=
  if state then t.success_status else t.fail_status

/-! ## Status overrides (`Processor._override_status`) -/

/-- One value of a `status_overrides` entry: the overrides dictionary keyed
by the classes `atStatus.FailStatus` / `atStatus.SuccessStatus`, each key
optional (`overrides_dict.get(..., None)`). -/
structure OverridesDict where
  fail_override : Option Status
  success_override : Option Status
deriving DecidableEq, Repr

/-- Model of the relevant state of a `Process` instance for status
overrides: its name plus its `Thread`-valued attributes (attribute name to
Thread), as discovered by `hasattr`/`getattr`. -/
structure ProcessThreads where
  name : String
  threads : List (String × Thread)
deriving DecidableEq, Repr

/-- Errors raised by `_override_status` (both are `RuntimeError`s). -/
inductive OverrideErr where
  | noThread (process_name thread_name : String)
  | badFailOverride (process_name thread_name : String)
  | badSuccessOverride (process_name thread_name : String)
deriving DecidableEq, Repr

/-- Replace the thread stored under attribute `n` (all occurrences of the
key, which is unique in a well-formed attribute list). -/
def setThread (ts : List (String × Thread)) (n : String) (t : Thread) :
    List (String × Thread) :=
  ts.map (fun p => if p.1 = n then (n, t) else p)

/-- The body of the `for thread_name, overrides_dict in overrides.items()`
loop of `Processor._override_status`, for a single entry: check the thread
attribute exists, then validate and apply the fail override, then validate
and apply the success override.  Any failed validation raises immediately. -/
def apply_override (p : ProcessThreads) (thread_name : String)
    (od : OverridesDict) : Except OverrideErr ProcessThreads :=
  match p.threads.lookup thread_name with
  | none => .error (.noThread p.name thread_name)
  | some thread =>
    match od.fail_override with
    | some st =>
      if st.kind ≠ .failStatus then
        .error (.badFailOverride p.name thread_name)
      else
        let thread := thread.override_fail_status st
        match od.success_override with
        | some st' =>
          if st'.kind ≠ .successStatus then
            .error (.badSuccessOverride p.name thread_name)
          else
            let thread := thread.override_success_status st'
            .ok { p with threads := setThread p.threads thread_name thread }
        | none => .ok { p with threads := setThread p.threads thread_name thread }
    | none =>
      match od.success_override with
      | some st' =>
        if st'.kind ≠ .successStatus then
          .error (.badSuccessOverride p.name thread_name)
        else
          let thread := thread.override_success_status st'
          .ok { p with threads := setThread p.threads thread_name thread }
      | none => .ok p

/-- Source `Processor._override_status(process, overrides)`: iterate the override
entries in order, applying each; the first invalid entry raises. -/
def override_status (p : ProcessThreads)
    (overrides : List (String × OverridesDict)) :
    Except OverrideErr ProcessThreads :=
  match overrides with
  | [] => .ok p
  | (n, od) :: rest => do
    let p' ← apply_override p n od
    override_status p' rest

/-- The thread produced by applying a valid overrides dictionary to a
thread: the active fail/success statuses are replaced by the overrides
when present; title and defaults are untouched. -/
def overridden_thread (t : Thread) (od : OverridesDict) : Thread :=
  { t with
      fail_status := od.fail_override.getD t.fail_status,
      success_status := od.success_override.getD t.success_status }

/-! ## Tag resolution (`Tag` and `Processor.setup_tags`) -/

/-- Bit values of the `Tag` flags (`enum.auto()` starting at 1). -/
def Tag.DISABLED : ℕ := 1

/-- Bit value of `Tag.NO_CHECK`. -/
def Tag.NO_CHECK : ℕ := 2

/-- Bit value of `Tag.NO_FIX`. -/
def Tag.NO_FIX : ℕ := 4

/-- Bit value of `Tag.NO_TOOL`. -/
def Tag.NO_TOOL : ℕ := 8

/-- Bit value of `Tag.NON_BLOCKING`. -/
def Tag.NON_BLOCKING : ℕ := 16

/-- Bit value of `Tag.NO_BATCH`. -/
def Tag.NO_BATCH : ℕ := 32

/-- Bit value of `Tag.NO_UI`. -/
def Tag.NO_UI : ℕ := 64

/-- Composite `Tag.OPTIONAL = NON_BLOCKING | DISABLED`. -/
def Tag.OPTIONAL : ℕ := Tag.NON_BLOCKING ||| Tag.DISABLED

/-- Composite `Tag.DEPENDANT = NO_CHECK | NO_FIX | NO_TOOL`. -/
def Tag.DEPENDANT : ℕ := Tag.NO_CHECK ||| Tag.NO_FIX ||| Tag.NO_TOOL

/-- The seven capability flags computed by `Processor.setup_tags`. -/
structure ProcessorFlags where
  is_enabled : Bool
  is_checkable : Bool
  is_fixable : Bool
  has_tool : Bool
  is_non_blocking : Bool
  in_batch : Bool
  in_ui : Bool
deriving DecidableEq, Repr

/-- Source `Processor.setup_tags`: reset the seven flags from scratch (checkable /
fixable / has-tool start at whether the Process class overrides the
corresponding method), then narrow each flag whose Tag bit is set.
`has_check/fix/tool` model `Processor.has_check_method` etc., i.e. whether
the Process class overrides `check`/`fix`/`tool`. -/
def setup_tags (has_check has_fix has_tool : Bool) (tags : ℕ) :
    ProcessorFlags :=
  let f : ProcessorFlags :=
    ⟨true, has_check, has_fix, has_tool, false, true, true⟩
  let f := if tags &&& Tag.DISABLED ≠ 0 then { f with is_enabled := false } else f
  let f := if tags &&& Tag.NO_CHECK ≠ 0 then { f with is_checkable := false } else f
  let f := if tags &&& Tag.NO_FIX ≠ 0 then { f with is_fixable := false } else f
  let f := if tags &&& Tag.NO_TOOL ≠ 0 then { f with has_tool := false } else f
  let f := if tags &&& Tag.NON_BLOCKING ≠ 0 then { f with is_non_blocking := true } else f
  let f := if tags &&& Tag.NO_BATCH ≠ 0 then { f with in_batch := false } else f
  let f := if tags &&& Tag.NO_UI ≠ 0 then { f with in_ui := false } else f
  f

/-! ## Feedback tree (`ProtoFeedback`, `FeedbackContainer`, `Feedback`) -/

/-- Model of a `ProtoFeedback` node for the selection cascade: whether the
node is a `FeedbackContainer` (`is_container = true`) or a `Feedback`
(`is_container = false`), its `selectable` flag, and its `children` list.
The carried `feedback` data plays no role in selection and is omitted. -/
inductive FNode where
  | mk (is_container : Bool) (selectable : Bool) (children : List FNode)
deriving Repr

/-- Children accessor for `FNode`. -/
def FNode.children : FNode → List FNode
  | .mk _ _ cs => cs

/-- Trace of the selection cascade.  `FNode.select_events n replace` lists,
in call order, the `replace` flag of every `child.select(replace=...)`
invocation performed (recursively) during `n.select(replace)`; `true` is a
"replace the selection" call, `false` an "add to the selection" call.

`FeedbackContainer.select` iterates its children only when the container IS
selectable (a non-selectable container returns immediately), while
`Feedback.select` iterates its children only when the feedback is NOT
selectable (a selectable feedback performs its own — by default empty —
action).  In both loops the first child receives the incoming `replace` and
every later child receives `replace = False`. -/
def FNode.select_events : FNode → Bool → List Bool
  | .mk true sel children, replace =>
    if sel then select_children children replace else []
  | .mk false sel children, replace =>
    if sel then [] else select_children children replace
where
  /-- The `for child in self.children: child.select(replace=replace);
  replace = False` loop, shared by both classes. -/
  select_children : List FNode → Bool → List Bool
  | [], _ => []
  | c :: cs, replace =>
    (replace :: c.select_events replace) ++ select_children cs false

/-! ## Parameter descriptors (`Parameter` and its four subtypes) -/

/-- Model of a Python value that can flow into a Parameter assignment. -/
inductive PyVal where
  | vBool (b : Bool)
  | vInt (n : ℤ)
  | vFloat (q : Level)
  | vStr (s : String)
deriving DecidableEq, Repr

/-- Python exceptions that `type_cast` can raise. -/
inductive PyExc where
  | valueError
  | attributeError
  | typeError
deriving DecidableEq, Repr

/-- One of the four concrete Parameter subtypes together with its
constructor configuration: `BoolParameter(default)`,
`IntParameter(default, minimum, maximum, keepInRange)`,
`FloatParameter(default, minimum, maximum, keepInRange)` (finite float
bounds and defaults modelled as rationals), and
`StringParameter(default, validation, case_sensitive)`. -/
inductive ParamKind where
  | boolP (default : Bool)
  | intP (default : ℤ) (minimum maximum : Option ℤ) (keep_in_range : Bool)
  | floatP (default : ℚ) (minimum maximum : Option ℚ) (keep_in_range : Bool)
  | stringP (default : String) (validation : Option (List String))
      (case_sensitive : Bool)
deriving DecidableEq, Repr

/-- The declared default of a Parameter, as a `PyVal`. -/
def ParamKind.default : ParamKind → PyVal
  | .boolP d => .vBool d
  | .intP d _ _ _ => .vInt d
  | .floatP d _ _ _ => .vFloat (.num d)
  | .stringP d _ _ => .vStr d

/-- Python `int(value)` on the modelled value fragment: bools become 0/1,
finite floats truncate toward zero, numeric strings parse as integer
literals and other strings raise `ValueError`; infinities and `nan` raise
(`OverflowError`/`ValueError`, both modelled as `valueError`). -/
def py_int_of : PyVal → Except PyExc ℤ
  | .vBool b => .ok (if b then 1 else 0)
  | .vInt n => .ok n
  | .vFloat (.num q) => .ok (if q ≥ 0 then q.floor else q.ceil)
  | .vFloat _ => .error .valueError
  | .vStr s =>
    match s.toInt? with
    | some n => .ok n
    | none => .error .valueError

/-- Python `float(value)` on the modelled value fragment, restricted to
finite results as rationals: bools become 0.0/1.0, integer strings parse
(the model covers integer literals only), other strings raise
`ValueError`. -/
def py_float_of : PyVal → Except PyExc ℚ
  | .vBool b => .ok (if b then 1 else 0)
  | .vInt n => .ok (n : ℚ)
  | .vFloat (.num q) => .ok q
  | .vFloat _ => .error .valueError
  | .vStr s =>
    match s.toInt? with
    | some n => .ok (n : ℚ)
    | none => .error .valueError

/-- Source `_NumberParameter.type_cast` clamping step: if `keep_in_range`, a value
below the minimum returns the minimum, else (elif) a value above the
maximum returns the maximum. -/
def clamp_in_range {α : Type} [LinearOrder α] (minimum maximum : Option α)
    (keep_in_range : Bool) (v : α) : α :=
  if keep_in_range then
    match minimum with
    | some lo => if v < lo then lo else
      match maximum with
      | some hi => if v > hi then hi else v
      | none => v
    | none =>
      match maximum with
      | some hi => if v > hi then hi else v
      | none => v
  else v

/-- Source `type_cast` for each Parameter subtype.

* `BoolParameter.type_cast`: membership of the input in the tuple
  `(True, 'True', 'true', 'Yes', 'yes', 1, '1')` (never raises).
* `IntParameter`/`FloatParameter` (`_NumberParameter.type_cast`):
  `self.TYPE(value)` followed by the `keepInRange` clamping.
* `StringParameter.type_cast`: `str(value.lower())` — raises
  `AttributeError` for any non-string input. -/
def param_type_cast : ParamKind → PyVal → Except PyExc PyVal
  | .boolP _, v =>
    .ok (.vBool (match v with
      | .vBool b => b
      | .vInt n => n == 1
      | .vFloat l => Level.beq l (.num 1)
      | .vStr s => s ∈ ["True", "true", "Yes", "yes", "1"]))
  | .intP _ lo hi keep, v => do
    let n ← py_int_of v
    pure (.vInt (clamp_in_range lo hi keep n))
  | .floatP _ lo hi keep, v => do
    let q ← py_float_of v
    pure (.vFloat (.num (clamp_in_range lo hi keep q)))
  | .stringP _ _ _, v =>
    match v with
    | .vStr s => .ok (.vStr s.toLower)
    | _ => .error .attributeError

/-- Source `validate` for each Parameter subtype.

* `BoolParameter.validate`: `isinstance(value, bool)`.
* `_NumberParameter.validate`: within the `minimum`/`maximum` range.
* `StringParameter.validate`: no `validation` list accepts everything,
  otherwise membership (case-folded when not `case_sensitive`). -/
def param_validate : ParamKind → PyVal → Bool
  | .boolP _, .vBool _ => true
  | .boolP _, _ => false
  | .intP _ lo hi _, .vInt n =>
    (match lo with | some l => decide (n ≥ l) | none => true) &&
    (match hi with | some h => decide (n ≤ h) | none => true)
  | .intP _ _ _ _, _ => false
  | .floatP _ lo hi _, .vFloat (.num q) =>
    (match lo with | some l => decide (q ≥ l) | none => true) &&
    (match hi with | some h => decide (q ≤ h) | none => true)
  | .floatP _ _ _ _, _ => false
  | .stringP _ validation case_sensitive, .vStr s =>
    (match validation with
     | none => true
     | some vs =>
       if case_sensitive then s ∈ vs
       else s.toLower ∈ vs.map (fun v => v.toLower))
  | .stringP _ _ _, _ => false

/-- Source `Parameter.__set__(instance, value)`: run `type_cast`, then `validate`
on the cast result, and store the cast value only when validation passes.
The result is the stored per-instance value after the assignment (`stored`
is the value stored before it); a raising `type_cast` propagates and leaves
the stored value unchanged (the `.error` case). -/
def param_set (k : ParamKind) (stored : PyVal) (value : PyVal) :
    Except PyExc PyVal :=
  match param_type_cast k value with
  | .error e => .error e
  | .ok cast_value =>
    .ok (if param_validate k cast_value then cast_value else stored)

/-- Source `Parameter.__delete__(instance)`: reset the per-instance stored value to
the declared default. -/
def param_delete (k : ParamKind) (_stored : PyVal) : PyVal :=
  k.default

/-! ## Cooperative interruption (`Process.listen_for_user_interruption`) -/

/-- Observable outcome of one call to `listen_for_user_interruption`:
whether the `_listen_for_user_interruption` Event was fired, whether
`AtProcessExecutionInterrupted` was raised, and the value of the private
`__do_interrupt` flag after the call. -/
structure InterruptOutcome where
  event_fired : Bool
  raised : Bool
  flag_after : Bool
deriving DecidableEq, Repr

/-- Source `Process.listen_for_user_interruption()`.

`flag_before` is the value of `self.__do_interrupt` when the method is
entered; `callbacks_register` tells whether the callbacks run by firing the
`_listen_for_user_interruption` Event end up calling
`_register_interruption` (setting the flag) during the event.

The method first returns immediately when the flag is already set; then it
fires the Event; then, if the flag is now set, it clears the flag and
raises. -/
def listen_for_user_interruption (flag_before callbacks_register : Bool) :
    InterruptOutcome :=
  if flag_before then
    ⟨false, false, flag_before⟩
  else
    let flag := callbacks_register
    if flag then ⟨true, true, false⟩ else ⟨true, false, flag⟩

/-- Source `Process._register_interruption()`: set the `__do_interrupt` flag (the
flag is the whole relevant state). -/
def register_interruption (_flag_before : Bool) : Bool :=
  true

/-! ## Processor `check` wrapper (`Processor.check` / `Processor.run_links`) -/

/-- Events observable while `Processor.check` runs: the call into the
wrapped Process's `check`, and each linked callable invoked by
`run_links` (identified by a numeric id). -/
inductive CallEvent where
  | processCheck
  | linkRun (id : ℕ)
deriving DecidableEq, Repr

/-- Result of `Processor.check`: `noCheck` when the Process class has no
`check` override (the wrapper returns `None` immediately), `containers`
when the call returns the Process's current FeedbackContainers (abstracted
to a list of container ids), and `raised` when the Process's `check` raised
and the exception was re-raised to the caller. -/
inductive CheckResult where
  | noCheck
  | containers (cs : List ℕ)
  | raised (e : PyExc)
deriving DecidableEq, Repr

/-- The state of a `Processor` relevant to the `check` wrapper:
whether its Process class overrides `check` (`has_check_method`), the
resolved CHECK-driven callables stored in `__links_data[Link.CHECK]`
(by id), the behavior of `process.check(*args, **kwargs)` (`check_outcome`:
normal return or raised exception), and the FeedbackContainers the Process
holds after the call (`containers`, abstracted to ids). -/
structure ProcessorRun where
  has_check_method : Bool
  check_links : List ℕ
  check_outcome : Except PyExc Unit
  containers : List ℕ
deriving Repr

/-- Source `Processor.run_links(Link.CHECK)`: call each resolved CHECK-driven
callable in order; its observable behavior is the list of link events. -/
def run_links_check (pr : ProcessorRun) : List CallEvent :=
  pr.check_links.map CallEvent.linkRun

/-- Source `Processor.check(links)`: return `None` with no calls when the Process
has no `check` override; otherwise invoke `process.check` inside a
`try/except/finally` where the `finally` block runs `run_links(Link.CHECK)`
when `links` is true, and any exception from the `check` call is re-raised
to the caller after the `finally` block; a normal return yields the
Process's FeedbackContainers.  Returns the ordered trace of calls paired
with the result. -/
def processor_check (pr : ProcessorRun) (links : Bool) :
    List CallEvent × CheckResult :=
  if !pr.has_check_method then
    ([], .noCheck)
  else
    let body_events : List CallEvent := [.processCheck]
    let finally_events : List CallEvent :=
      if links then run_links_check pr else []
    match pr.check_outcome with
    | .error e => (body_events ++ finally_events, .raised e)
    | .ok _ => (body_events ++ finally_events, .containers pr.containers)

/-! ## Blueprint (`Blueprint.processors`) -/

/-- The part of a Blueprint description used by `Processor.__init__` that
the claims depend on: the Tag value and whether the described Process
class overrides each of `check`/`fix`/`tool`. -/
structure ProcDescription where
  tags : ℕ
  has_check : Bool
  has_fix : Bool
  has_tool : Bool
deriving DecidableEq, Repr

/-- A constructed `Processor`: its description and the capability flags
`setup_tags` resolves at construction time (`Processor.__init__` calls
`setup_tags` eagerly). -/
structure ProcessorModel where
  description : ProcDescription
  flags : ProcessorFlags
deriving DecidableEq, Repr

/-- Source `Processor(**description)`: store the description and resolve the tags. -/
def mkProcessor (d : ProcDescription) : ProcessorModel :=
  ⟨d, setup_tags d.has_check d.has_fix d.has_tool d.tags⟩

/-- Source `Processor.is_enabled` for the model. -/
def ProcessorModel.is_enabled (p : ProcessorModel) : Bool :=
  p.flags.is_enabled

/-- The part of a Blueprint module the `processors` property reads: the
`header` tuple of ids and the `descriptions` dict (modelled as an
association list with unique keys). -/
structure BlueprintModel where
  header : List String
  descriptions : List (String × ProcDescription)
deriving DecidableEq, Repr

/-- The first loop of `Blueprint.processors`: for each id in `header`, skip
it when it is not a key of `descriptions`, otherwise construct a
`Processor` from its description and append it.  (The second loop,
`resolve_links`, does not add or remove processors.) -/
def blueprint_processors (bp : BlueprintModel) : List ProcessorModel :=
  go bp.header
where
  /-- The `for id_ in self.header` loop. -/
  go : List String → List ProcessorModel
  | [] => []
  | id_ :: rest =>
    match bp.descriptions.lookup id_ with
    | none => go rest
    | some d => mkProcessor d :: go rest

/-! ## Register (`Register.load_blueprint_from_module` and
`current_blueprint` setter) -/

/-- Model of a Blueprint held by the Register as far as identity is
concerned: `Blueprint.__eq__` compares `self._module.__file__`, so a
Blueprint is its module's file path plus the rest of its (opaque) content,
modelled by a payload number distinguishing structurally different
blueprints with the same file. -/
structure BlueprintId where
  file : String
  payload : ℕ
deriving DecidableEq, Repr

/-- Source `Blueprint.__eq__`: same module file path. -/
def blueprint_eq (a b : BlueprintId) : Bool := a.file == b.file

/-- The Register state touched by the claims: the `__blueprints` list and
`_current_blueprint`. -/
structure RegisterModel where
  blueprints : List BlueprintId
  current_blueprint : Option BlueprintId
deriving DecidableEq, Repr

/-- The `for i, blueprint in enumerate(...): if blueprint == new_blueprint:
replace and break / else: append` loop of `load_blueprint_from_module`:
replace the first entry equal (by `__eq__`) to the new blueprint, keeping
its position, or append the new blueprint at the end when no entry
matches. -/
def replace_or_append (nb : BlueprintId) : List BlueprintId → List BlueprintId
  | [] => [nb]
  | b :: bs => if blueprint_eq b nb then nb :: bs else b :: replace_or_append nb bs

/-- Source `Register.load_blueprint_from_module(module)` where `Blueprint(module)`
produced `nb`. -/
def load_blueprint (r : RegisterModel) (nb : BlueprintId) : RegisterModel :=
  { r with blueprints := replace_or_append nb r.blueprints }

/-- The `current_blueprint` setter: only assigns when the given blueprint
is in the `__blueprints` list (Python `in`, which uses `__eq__`). -/
def set_current_blueprint (r : RegisterModel) (b : BlueprintId) :
    RegisterModel :=
  if r.blueprints.any (fun x => blueprint_eq b x) then
    { r with current_blueprint := some b }
  else r

/-! ## Helper lemmas -/

set_option maxHeartbeats 3200000 in
/-- Closed form of `setup_tags`: each flag as a boolean function of the tag
bits and the three method-override booleans. -/
theorem setup_tags_spec (hc hf ht : Bool) (tags : ℕ) :
    setup_tags hc hf ht tags =
      ⟨tags &&& Tag.DISABLED == 0,
       hc && (tags &&& Tag.NO_CHECK == 0),
       hf && (tags &&& Tag.NO_FIX == 0),
       ht && (tags &&& Tag.NO_TOOL == 0),
       !(tags &&& Tag.NON_BLOCKING == 0),
       tags &&& Tag.NO_BATCH == 0,
       tags &&& Tag.NO_UI == 0⟩ := by
  simp only [setup_tags]
  split_ifs <;>
    simp_all only [ProcessorFlags.mk.injEq, beq_iff_eq, Bool.and_true,
      Bool.and_false, Bool.not_true, Bool.not_false, eq_self_iff_true,
      and_true, true_and, beq_eq_false_iff_ne, ne_eq, not_false_iff,
      Bool.not_eq_true] <;>
    simp_all

/-- Equal non-`nan` levels are `==`-equal. -/
theorem Level.beq_of_eq_of_ne_nan (a b : Level) (h : a = b) (hn : a ≠ .nan) :
    Level.beq a b = true := by
  subst h
  cases a <;> simp_all [Level.beq]

/-- Totality of the level comparison on non-`nan` levels. -/
theorem Level.comparison_total (a b : Level) (ha : a ≠ .nan) (hb : b ≠ .nan) :
    a.blt b = true ∨ a.beq b = true ∨ a.bgt b = true := by
  cases a <;> cases b <;>
    simp_all [Level.blt, Level.beq, Level.bgt]
  exact lt_trichotomy _ _

/-! ## C3 -/

/-- C3: tag resolution is a pure function of the tag bits and of which
methods the Process class overrides.  `Tag.DISABLED` forces `is_enabled`
false regardless of the other bits; `NO_CHECK`/`NO_FIX`/`NO_TOOL` force
`is_checkable`/`is_fixable`/`has_tool` false; `NON_BLOCKING` sets
`is_non_blocking` true; `NO_BATCH`/`NO_UI` force `in_batch`/`in_ui` false;
and `is_checkable`/`is_fixable`/`has_tool` are false whenever the Process
class does not override the corresponding method, so a tag can only narrow
capability. -/
theorem C3_tag_resolution (hc hf ht : Bool) (tags : ℕ) :
    (tags &&& Tag.DISABLED ≠ 0 → (setup_tags hc hf ht tags).is_enabled = false) ∧
    (tags &&& Tag.NO_CHECK ≠ 0 → (setup_tags hc hf ht tags).is_checkable = false) ∧
    (tags &&& Tag.NO_FIX ≠ 0 → (setup_tags hc hf ht tags).is_fixable = false) ∧
    (tags &&& Tag.NO_TOOL ≠ 0 → (setup_tags hc hf ht tags).has_tool = false) ∧
    (tags &&& Tag.NON_BLOCKING ≠ 0 →
      (setup_tags hc hf ht tags).is_non_blocking = true) ∧
    (tags &&& Tag.NO_BATCH ≠ 0 → (setup_tags hc hf ht tags).in_batch = false) ∧
    (tags &&& Tag.NO_UI ≠ 0 → (setup_tags hc hf ht tags).in_ui = false) ∧
    (hc = false → (setup_tags hc hf ht tags).is_checkable = false) ∧
    (hf = false → (setup_tags hc hf ht tags).is_fixable = false) ∧
    (ht = false → (setup_tags hc hf ht tags).has_tool = false) := by
  simp only [setup_tags_spec]
  refine ⟨fun h => ?_, fun h => ?_, fun h => ?_, fun h => ?_, fun h => ?_,
    fun h => ?_, fun h => ?_, fun h => ?_, fun h => ?_, fun h => ?_⟩ <;>
    simp_all

/-- Witness for C3 at a concrete input: tags `DISABLED | NO_CHECK` on a
Process that overrides all three methods. -/
theorem C3_witness :
    (setup_tags true true true (Tag.DISABLED ||| Tag.NO_CHECK)).is_enabled = false ∧
    (setup_tags true true true (Tag.DISABLED ||| Tag.NO_CHECK)).is_checkable = false ∧
    (setup_tags false true true 0).is_checkable = false :=
  ⟨(C3_tag_resolution true true true (Tag.DISABLED ||| Tag.NO_CHECK)).1 (by decide),
   (C3_tag_resolution true true true (Tag.DISABLED ||| Tag.NO_CHECK)).2.1 (by decide),
   (C3_tag_resolution false true true 0).2.2.2.2.2.2.2.1 rfl⟩

/-! ## C7 -/

/-- C7 counterexample: two `FailStatus` instances constructed with the same
`nan` level have equal `level` fields, yet `==` (which is float equality on
levels) does not consider them equal — refuting "any two statuses with
equal levels are equal regardless of name/color" as stated. -/
theorem C7_counterexample :
    (FailStatus "A" (0, 0, 0) .nan).level = (FailStatus "B" (1, 1, 1) .nan).level ∧
    status_eq (FailStatus "A" (0, 0, 0) .nan) (FailStatus "B" (1, 1, 1) .nan) = false :=
  ⟨rfl, rfl⟩

/-- C7 (amended): comparison of statuses is determined by the `level` field
alone (name and color never participate); any two statuses with equal
NON-`nan` levels are equal regardless of name/color; on non-`nan` levels
the comparison is total; and a status with level 5 is greater than any
status with level 1. -/
theorem C7_comparison_by_level (a b a' b' : Status) :
    (a.level = a'.level → b.level = b'.level →
      status_eq a b = status_eq a' b' ∧ status_lt a b = status_lt a' b' ∧
        status_gt a b = status_gt a' b') ∧
    (a.level = b.level → a.level ≠ .nan → status_eq a b = true) ∧
    (a.level ≠ .nan → b.level ≠ .nan →
      status_lt a b = true ∨ status_eq a b = true ∨ status_gt a b = true) ∧
    (a.level = .num 5 → b.level = .num 1 → status_gt a b = true) := by
  refine ⟨fun h1 h2 => ?_, fun h hn => ?_, fun ha hb => ?_, fun h5 h1 => ?_⟩
  · simp [status_eq, status_lt, status_gt, h1, h2]
  · exact Level.beq_of_eq_of_ne_nan _ _ h hn
  · exact Level.comparison_total a.level b.level ha hb
  · simp [status_gt, h5, h1, Level.bgt, Level.blt]

/-- Witness for C7 at concrete statuses: a `FailStatus` and a
`SuccessStatus` with equal level 5 are equal despite different names and
colors, and a level-5 status is greater than a level-1 status. -/
theorem C7_witness :
    status_eq (FailStatus "High" (1, 2, 3) (.num 5))
      (SuccessStatus "Other" (9, 9, 9) (.num 5)) = true ∧
    status_gt (FailStatus "Five" (0, 0, 0) (.num 5))
      (FailStatus "One" (200, 200, 200) (.num 1)) = true :=
  ⟨(C7_comparison_by_level (FailStatus "High" (1, 2, 3) (.num 5))
      (SuccessStatus "Other" (9, 9, 9) (.num 5))
      (FailStatus "High" (1, 2, 3) (.num 5))
      (SuccessStatus "Other" (9, 9, 9) (.num 5))).2.1 rfl (by decide),
   (C7_comparison_by_level (FailStatus "Five" (0, 0, 0) (.num 5))
      (FailStatus "One" (200, 200, 200) (.num 1))
      (FailStatus "Five" (0, 0, 0) (.num 5))
      (FailStatus "One" (200, 200, 200) (.num 1))).2.2.2 rfl rfl⟩

/-! ## C10 -/

/-- C10: `Status.__eq__` compares by level only while `Status.__hash__`
hashes the `(name, color, level)` triple, so two statuses with equal level
but different name/color compare equal yet feed different inputs to the
hash — a hash-based container is therefore not guaranteed to collapse
`==`-equal statuses.  Shown structurally (equality looks only at levels,
the hash key contains name and color) and on a concrete equal-but-
differently-hashed pair. -/
theorem C10_eq_hash_mismatch :
    (∀ a b : Status, status_eq a b = Level.beq a.level b.level) ∧
    (∀ (a : Status) (n : String) (c : ℕ × ℕ × ℕ),
      status_hash_key { a with name := n, color := c } = (n, c, a.level)) ∧
    status_eq (FailStatus "Warning" (196, 98, 16) (.num 1))
      (FailStatus "Custom" (0, 0, 0) (.num 1)) = true ∧
    status_hash_key (FailStatus "Warning" (196, 98, 16) (.num 1)) ≠
      status_hash_key (FailStatus "Custom" (0, 0, 0) (.num 1)) := by
  refine ⟨fun a b => rfl, fun a n c => rfl, by decide, by decide⟩

/-! ## C2 -/

/-- Selecting a list of selectable leaf Feedback children with
`replace = False` produces one "add" call per child. -/
theorem select_children_leaves_false (k : ℕ) :
    FNode.select_events.select_children
      (List.replicate k (FNode.mk false true [])) false =
      List.replicate k false := by
  induction k with
  | zero => rfl
  | succ n ih =>
    simp [List.replicate_succ, FNode.select_events.select_children,
      FNode.select_events, ih]

/-- C2 counterexample: a NON-selectable `FeedbackContainer` with three
selectable children performs no child `select` call at all when
`select(replace=True)` is called (the code returns immediately for a
non-selectable container), so the claimed "exactly one replace and two
adds" trace does not occur. -/
theorem C2_counterexample :
    FNode.select_events
      (.mk true false
        [.mk false true [], .mk false true [], .mk false true []]) true = [] ∧
    ([] : List Bool) ≠ [true, false, false] :=
  ⟨rfl, by decide⟩

/-- C2 (amended): `Feedback.select` delegates to all children when the node
is NOT selectable (first child with the incoming `replace`, later children
with `replace=False`) and does nothing itself when selectable, while
`FeedbackContainer.select` delegates to all children when the container IS
selectable and does nothing when non-selectable; in particular a selectable
`FeedbackContainer` with `n+1` selectable children produces exactly one
"replace" call followed by `n` "add" calls, in child order — for three
children, `[replace, add, add]`. -/
theorem C2_selection_cascade (ch : List FNode) (r : Bool) (n : ℕ) :
    (FNode.select_events (.mk true true ch) r =
      FNode.select_events.select_children ch r) ∧
    (FNode.select_events (.mk true false ch) r = []) ∧
    (FNode.select_events (.mk false false ch) r =
      FNode.select_events.select_children ch r) ∧
    (FNode.select_events (.mk false true ch) r = []) ∧
    (FNode.select_events
      (.mk true true (List.replicate (n + 1) (FNode.mk false true []))) true =
      true :: List.replicate n false) ∧
    (FNode.select_events
      (.mk true true
        [.mk false true [], .mk false true [], .mk false true []]) true =
      [true, false, false]) := by
  refine ⟨rfl, rfl, rfl, rfl, ?_, rfl⟩
  simp [FNode.select_events, List.replicate_succ,
    FNode.select_events.select_children, select_children_leaves_false]

/-! ## C6 -/

/-- C6 counterexample: on a Process whose interruption flag is already set
before the call, `listen_for_user_interruption` returns immediately — it
does not fire the Event, does not raise, and leaves the flag set — whether
or not the Event callbacks would have registered an interruption. -/
theorem C6_counterexample :
    listen_for_user_interruption true false = ⟨false, false, true⟩ ∧
    listen_for_user_interruption true true = ⟨false, false, true⟩ :=
  ⟨rfl, rfl⟩

/-- C6 (amended): `listen_for_user_interruption` fires the interruption
Event only when the flag is clear on entry; if the Event's callbacks flag
interruption (via `_register_interruption`) during the call, the
execution-interrupted exception is raised and the flag is cleared; if no
callback flags it, the call returns normally with the flag clear; and if
the flag was already set before the call, the method returns immediately
without firing the Event, without raising, and without clearing the flag. -/
theorem C6_interruption (flag_before callbacks_register : Bool) :
    (flag_before = false →
      listen_for_user_interruption flag_before callbacks_register =
        ⟨true, callbacks_register, false⟩) ∧
    (flag_before = true →
      listen_for_user_interruption flag_before callbacks_register =
        ⟨false, false, true⟩) ∧
    (register_interruption flag_before = true) := by
  refine ⟨fun h => ?_, fun h => ?_, rfl⟩ <;>
    subst h <;> cases callbacks_register <;> rfl

/-- Witness for C6 at concrete inputs: flag clear and a callback that
registers interruption raises and clears; flag already set returns
untouched. -/
theorem C6_witness :
    listen_for_user_interruption false true = ⟨true, true, false⟩ ∧
    listen_for_user_interruption true true = ⟨false, false, true⟩ :=
  ⟨(C6_interruption false true).1 rfl, (C6_interruption true true).2.1 rfl⟩

/-! ## C1 -/

/-- Counting link events in a mapped trace counts the underlying link ids. -/
theorem count_linkRun_map (l : List ℕ) (z : ℕ) :
    (l.map CallEvent.linkRun).count (.linkRun z) = l.count z := by
  induction l with
  | nil => rfl
  | cons a l ih =>
    simp only [List.map_cons, List.count_cons, ih]
    by_cases h : a = z <;> simp [h]

/-- C1: for a Processor whose Process overrides `check`, calling
`check(links=True)` invokes each resolved CHECK-driven linked callable
exactly as often as it occurs in the resolved link list (hence exactly once
for a link resolved once), both when the Process's `check` returns normally
and when it raises; in the raising case the original exception is re-raised
to the caller after the links have run (the link events precede the raised
result in the trace), and in the normal case the call returns the Process's
current FeedbackContainers; calling `check(links=False)` invokes the linked
callables zero times. -/
theorem C1_check_links_and_reraise (pr : ProcessorRun) (e : PyExc) :
    pr.has_check_method = true →
    ((processor_check pr true).1 =
      .processCheck :: pr.check_links.map .linkRun) ∧
    (∀ z, (processor_check pr true).1.count (.linkRun z) =
      pr.check_links.count z) ∧
    (pr.check_outcome = .error e → (processor_check pr true).2 = .raised e) ∧
    (pr.check_outcome = .ok () →
      (processor_check pr true).2 = .containers pr.containers) ∧
    ((processor_check pr false).1 = [.processCheck]) ∧
    (∀ z, (processor_check pr false).1.count (.linkRun z) = 0) := by
  intro h
  refine ⟨?_, fun z => ?_, fun he => ?_, fun he => ?_, ?_, fun z => ?_⟩
  · unfold processor_check run_links_check
    cases pr.check_outcome <;> simp [h]
  · unfold processor_check run_links_check
    cases pr.check_outcome <;>
      simp [h, List.count_cons, count_linkRun_map]
  · simp [processor_check, run_links_check, h, he]
  · simp [processor_check, run_links_check, h, he]
  · unfold processor_check
    cases pr.check_outcome <;> simp [h]
  · unfold processor_check
    cases pr.check_outcome <;> simp [h, List.count_cons]

/-- Witness for C1 at a concrete Processor: one CHECK link (id 7), a
`check` that raises `ValueError`; the link runs once and the exception is
re-raised; with `links=False` the link never runs. -/
theorem C1_witness :
    (processor_check ⟨true, [7], .error .valueError, []⟩ true).1 =
      [.processCheck, .linkRun 7] ∧
    (processor_check ⟨true, [7], .error .valueError, []⟩ true).2 =
      .raised .valueError ∧
    (processor_check ⟨true, [7], .error .valueError, []⟩ false).1 =
      [.processCheck] := by
  have h := C1_check_links_and_reraise ⟨true, [7], .error .valueError, []⟩
    .valueError rfl
  exact ⟨h.1, h.2.2.1 rfl, h.2.2.2.2.1⟩

/-! ## C5 -/

/-- The processor-building loop of `Blueprint.processors` as a
`filterMap` over the header. -/
theorem blueprint_processors_eq_filterMap (bp : BlueprintModel) :
    blueprint_processors bp =
      bp.header.filterMap
        (fun i => (bp.descriptions.lookup i).map mkProcessor) := by
  show blueprint_processors.go bp bp.header = _
  induction bp.header with
  | nil => rfl
  | cons i rest ih =>
    cases hl : bp.descriptions.lookup i <;>
      simp [blueprint_processors.go, hl, List.filterMap_cons, ih]

/-- A `filterMap` keeps as many elements as pass the `isSome` filter. -/
theorem length_filterMap_eq_length_filter {α β : Type} (l : List α)
    (f : α → Option β) :
    (l.filterMap f).length = (l.filter (fun i => (f i).isSome)).length := by
  induction l with
  | nil => rfl
  | cons a l ih =>
    cases h : f a <;> simp [List.filterMap_cons, List.filter_cons, h, ih]

/-- C5: `Blueprint.processors` yields exactly one Processor per header id
that is also a key of `descriptions`, in header order; header ids missing
from `descriptions` are skipped and ids present only in `descriptions`
produce nothing (the result is a function of the header).  A `DISABLED`
tag does not exclude a Processor: for `header=('A','B')` with `B` tagged
`DISABLED`, `processors` yields 2 Processors and the second one has
`is_enabled = False`. -/
theorem C5_processors_header_order :
    (∀ bp : BlueprintModel, blueprint_processors bp =
      bp.header.filterMap
        (fun i => (bp.descriptions.lookup i).map mkProcessor)) ∧
    (∀ bp : BlueprintModel, (blueprint_processors bp).length =
      (bp.header.filter
        (fun i => (bp.descriptions.lookup i).isSome)).length) ∧
    (blueprint_processors
      ⟨["A", "B"],
       [("A", ⟨0, true, true, true⟩),
        ("B", ⟨Tag.DISABLED, true, true, true⟩)]⟩).length = 2 ∧
    ((blueprint_processors
      ⟨["A", "B"],
       [("A", ⟨0, true, true, true⟩),
        ("B", ⟨Tag.DISABLED, true, true, true⟩)]⟩).get? 1).map
      ProcessorModel.is_enabled = some false := by
  refine ⟨blueprint_processors_eq_filterMap, fun bp => ?_, by decide, by decide⟩
  rw [blueprint_processors_eq_filterMap,
    length_filterMap_eq_length_filter]
  simp [Option.isSome_map]

/-! ## C9 -/

/-- When no existing blueprint matches the new one's file path, the loop
falls through to the `else` branch and appends. -/
theorem replace_or_append_no_match (nb : BlueprintId) (l : List BlueprintId)
    (h : ∀ x ∈ l, blueprint_eq x nb = false) :
    replace_or_append nb l = l ++ [nb] := by
  induction l with
  | nil => rfl
  | cons b bs ih =>
    simp only [replace_or_append]
    rw [if_neg, ih (fun x hx => h x (List.mem_cons_of_mem b hx))]
    · rfl
    · simp [h b (List.mem_cons_self b bs)]

/-- The first matching entry is replaced in place and the loop breaks. -/
theorem replace_or_append_first_match (nb old : BlueprintId)
    (pre post : List BlueprintId) (hpre : ∀ x ∈ pre, blueprint_eq x nb = false)
    (hold : blueprint_eq old nb = true) :
    replace_or_append nb (pre ++ old :: post) = pre ++ nb :: post := by
  induction pre with
  | nil => simp [replace_or_append, hold]
  | cons b bs ih =>
    simp only [List.cons_append, replace_or_append]
    rw [if_neg (by simp [hpre b (List.mem_cons_self b bs)])]
    show b :: replace_or_append nb (bs ++ old :: post) = _
    rw [ih (fun x hx => hpre x (List.mem_cons_of_mem b hx))]

/-- C9: loading a Blueprint whose equality key (module file path) matches an
already-loaded Blueprint replaces that entry in place at its existing
position; loading a Blueprint with a new key appends it to the end; the
`current_blueprint` setter assigns only when the given Blueprint is already
in the list (by `__eq__`) and otherwise leaves the Register unchanged. -/
theorem C9_register_load_and_current (r : RegisterModel) (nb b : BlueprintId)
    (pre post : List BlueprintId) (old : BlueprintId) :
    ((∀ x ∈ r.blueprints, blueprint_eq x nb = false) →
      (load_blueprint r nb).blueprints = r.blueprints ++ [nb]) ∧
    (r.blueprints = pre ++ old :: post → blueprint_eq old nb = true →
      (∀ x ∈ pre, blueprint_eq x nb = false) →
      (load_blueprint r nb).blueprints = pre ++ nb :: post) ∧
    (r.blueprints.any (fun x => blueprint_eq b x) = false →
      set_current_blueprint r b = r) ∧
    (r.blueprints.any (fun x => blueprint_eq b x) = true →
      (set_current_blueprint r b).current_blueprint = some b) := by
  refine ⟨fun h => ?_, fun hsplit hold hpre => ?_, fun h => ?_, fun h => ?_⟩
  · simp [load_blueprint, replace_or_append_no_match nb r.blueprints h]
  · simp [load_blueprint, hsplit,
      replace_or_append_first_match nb old pre post hpre hold]
  · simp [set_current_blueprint, h]
  · simp [set_current_blueprint, h]

/-- Witness for C9 at a concrete Register: reloading a blueprint with the
same file path replaces it at index 0 (list `[old, other]` becomes
`[new, other]`), and setting `current_blueprint` to an unknown blueprint
leaves the register unchanged while setting it to a known one assigns it. -/
theorem C9_witness :
    (load_blueprint ⟨[⟨"bp.py", 0⟩, ⟨"other.py", 0⟩], none⟩
      ⟨"bp.py", 1⟩).blueprints = [⟨"bp.py", 1⟩, ⟨"other.py", 0⟩] ∧
    (load_blueprint ⟨[⟨"bp.py", 0⟩], none⟩ ⟨"new.py", 0⟩).blueprints =
      [⟨"bp.py", 0⟩, ⟨"new.py", 0⟩] ∧
    set_current_blueprint ⟨[⟨"bp.py", 0⟩], none⟩ ⟨"stranger.py", 0⟩ =
      ⟨[⟨"bp.py", 0⟩], none⟩ ∧
    (set_current_blueprint ⟨[⟨"bp.py", 0⟩], none⟩
      ⟨"bp.py", 0⟩).current_blueprint = some ⟨"bp.py", 0⟩ := by
  refine ⟨?_, ?_, ?_, ?_⟩
  · exact (C9_register_load_and_current ⟨[⟨"bp.py", 0⟩, ⟨"other.py", 0⟩], none⟩
      ⟨"bp.py", 1⟩ ⟨"bp.py", 1⟩ [] [⟨"other.py", 0⟩] ⟨"bp.py", 0⟩).2.1
      rfl (by decide) (by intro x hx; cases hx)
  · exact (C9_register_load_and_current ⟨[⟨"bp.py", 0⟩], none⟩
      ⟨"new.py", 0⟩ ⟨"new.py", 0⟩ [] [] ⟨"bp.py", 0⟩).1
      (by intro x hx; simp at hx; subst hx; decide)
  · exact (C9_register_load_and_current ⟨[⟨"bp.py", 0⟩], none⟩
      ⟨"bp.py", 0⟩ ⟨"stranger.py", 0⟩ [] [] ⟨"bp.py", 0⟩).2.2.1 (by decide)
  · exact (C9_register_load_and_current ⟨[⟨"bp.py", 0⟩], none⟩
      ⟨"bp.py", 0⟩ ⟨"bp.py", 0⟩ [] [] ⟨"bp.py", 0⟩).2.2.2 (by decide)

/-! ## C8 -/

/-- C8: for every Parameter subtype (Bool/Int/Float/String), every stored
per-instance value and every input, assignment runs `type_cast` and then
`validate` on the cast result; the stored value is updated only when
validation returns true — when validation fails the assignment is silently
dropped (the call returns normally and the previously stored value is
unchanged); a raising `type_cast` propagates without storing; and deleting
the attribute restores the declared default value. -/
theorem C8_parameter_set_validate (k : ParamKind) (stored v c : PyVal)
    (e : PyExc) :
    (param_type_cast k v = .ok c → param_validate k c = true →
      param_set k stored v = .ok c) ∧
    (param_type_cast k v = .ok c → param_validate k c = false →
      param_set k stored v = .ok stored) ∧
    (param_type_cast k v = .error e → param_set k stored v = .error e) ∧
    (param_delete k stored = k.default) := by
  refine ⟨fun hc hv => ?_, fun hc hv => ?_, fun hc => ?_, rfl⟩ <;>
    simp [param_set, hc]
  · simp [hv]
  · simp [hv]

/-- Witness for C8 at a concrete `IntParameter(default=0, minimum=0,
maximum=10)`: assigning 99 fails validation and silently keeps the stored
value 3; assigning 7 validates and stores 7; deleting restores the
default 0. -/
theorem C8_witness :
    param_set (.intP 0 (some 0) (some 10) false) (.vInt 3) (.vInt 99) =
      .ok (.vInt 3) ∧
    param_set (.intP 0 (some 0) (some 10) false) (.vInt 3) (.vInt 7) =
      .ok (.vInt 7) ∧
    param_delete (.intP 0 (some 0) (some 10) false) (.vInt 3) = .vInt 0 :=
  ⟨(C8_parameter_set_validate (.intP 0 (some 0) (some 10) false) (.vInt 3)
      (.vInt 99) (.vInt 99) .valueError).2.1 rfl (by decide),
   (C8_parameter_set_validate (.intP 0 (some 0) (some 10) false) (.vInt 3)
      (.vInt 7) (.vInt 7) .valueError).1 rfl (by decide),
   (C8_parameter_set_validate (.intP 0 (some 0) (some 10) false) (.vInt 3)
      (.vInt 7) (.vInt 7) .valueError).2.2.2⟩

/-! ## C4 -/

/-- A missing thread attribute raises `noThread` immediately. -/
theorem apply_override_no_thread (p : ProcessThreads) (n : String)
    (od : OverridesDict) (h : p.threads.lookup n = none) :
    apply_override p n od = .error (.noThread p.name n) := by
  unfold apply_override
  simp [h]

/-- A `FailStatus`-keyed override value that is not a `FailStatus` raises
`badFailOverride` immediately. -/
theorem apply_override_bad_fail (p : ProcessThreads) (n : String)
    (od : OverridesDict) (st : Status) (t : Thread)
    (hl : p.threads.lookup n = some t) (hf : od.fail_override = some st)
    (hk : st.kind ≠ .failStatus) :
    apply_override p n od = .error (.badFailOverride p.name n) := by
  unfold apply_override
  simp [hl, hf, hk]

/-- A `SuccessStatus`-keyed override value that is not a `SuccessStatus`
raises `badSuccessOverride` (when the fail override, if any, was valid and
therefore did not raise first). -/
theorem apply_override_bad_success (p : ProcessThreads) (n : String)
    (od : OverridesDict) (st : Status) (t : Thread)
    (hl : p.threads.lookup n = some t)
    (hfv : ∀ stf, od.fail_override = some stf → stf.kind = .failStatus)
    (hs : od.success_override = some st) (hk : st.kind ≠ .successStatus) :
    apply_override p n od = .error (.badSuccessOverride p.name n) := by
  unfold apply_override
  cases hf : od.fail_override with
  | none => simp [hl, hf, hs, hk]
  | some stf => simp [hl, hf, hs, hk, hfv stf hf]

/-- A valid, non-empty overrides dictionary replaces the active fail and/or
success statuses of the named thread — and nothing else: title and the two
default statuses are carried over unchanged. -/
theorem apply_override_applies (p : ProcessThreads) (n : String)
    (od : OverridesDict) (t : Thread)
    (hl : p.threads.lookup n = some t)
    (hfv : ∀ st, od.fail_override = some st → st.kind = .failStatus)
    (hsv : ∀ st, od.success_override = some st → st.kind = .successStatus)
    (hne : od.fail_override ≠ none ∨ od.success_override ≠ none) :
    apply_override p n od =
      .ok { p with threads := setThread p.threads n (overridden_thread t od) } := by
  unfold apply_override
  cases hf : od.fail_override with
  | some st =>
    cases hs : od.success_override with
    | some st' =>
      simp [hl, hf, hs, hfv st hf, hsv st' hs, overridden_thread,
        Thread.override_fail_status, Thread.override_success_status]
    | none =>
      simp [hl, hf, hs, hfv st hf, overridden_thread,
        Thread.override_fail_status]
  | none =>
    cases hs : od.success_override with
    | some st' =>
      simp [hl, hf, hs, hsv st' hs, overridden_thread,
        Thread.override_success_status]
    | none =>
      rcases hne with h | h
      · exact absurd hf h
      · exact absurd hs h

/-- Unfolding `List.lookup` over a cons cell of the thread attribute list. -/
theorem lookup_cons_thread (m k : String) (v : Thread)
    (ps : List (String × Thread)) :
    List.lookup m ((k, v) :: ps) =
      if m = k then some v else List.lookup m ps := by
  by_cases h : m = k
  · subst h
    simp [List.lookup]
  · have hbeq : (m == k) = false := beq_eq_false_iff_ne.mpr h
    simp [List.lookup, hbeq, h]

/-- Looking a key up after `setThread`: the same entry is found, with the
value replaced exactly when the key is the overridden one. -/
theorem lookup_setThread (ts : List (String × Thread)) (n : String)
    (t : Thread) (m : String) :
    (setThread ts n t).lookup m =
      (ts.lookup m).map (fun old => if m = n then t else old) := by
  induction ts with
  | nil => rfl
  | cons hd ps ih =>
    obtain ⟨k, v⟩ := hd
    show List.lookup m ((if k = n then (n, t) else (k, v)) :: setThread ps n t) =
      Option.map _ (List.lookup m ((k, v) :: ps))
    rw [lookup_cons_thread m k v ps]
    by_cases hkn : k = n
    · subst hkn
      rw [if_pos rfl, lookup_cons_thread]
      by_cases hmk : m = k
      · subst hmk
        simp
      · simp [hmk, ih]
    · rw [if_neg hkn, lookup_cons_thread]
      by_cases hmk : m = k
      · subst hmk
        simp [hkn]
      · simp [hmk, ih]

/-- A successful `apply_override` either returns the process unchanged or
only rewrites the named thread attribute. -/
theorem apply_override_ok_shape (p : ProcessThreads) (n : String)
    (od : OverridesDict) (p' : ProcessThreads)
    (h : apply_override p n od = .ok p') :
    p'.threads = p.threads ∨ ∃ t', p'.threads = setThread p.threads n t' := by
  unfold apply_override at h
  split at h
  · exact Except.noConfusion h
  · split at h
    · split at h
      · exact Except.noConfusion h
      · split at h
        · split at h
          · exact Except.noConfusion h
          · rw [Except.ok.injEq] at h
            subst h
            exact Or.inr ⟨_, rfl⟩
        · rw [Except.ok.injEq] at h
          subst h
          exact Or.inr ⟨_, rfl⟩
    · split at h
      · split at h
        · exact Except.noConfusion h
        · rw [Except.ok.injEq] at h
          subst h
          exact Or.inr ⟨_, rfl⟩
      · rw [Except.ok.injEq] at h
        subst h
        exact Or.inl rfl

/-- A successful `apply_override` preserves which thread attributes exist. -/
theorem apply_override_ok_lookup_none (p : ProcessThreads) (n : String)
    (od : OverridesDict) (p' : ProcessThreads)
    (h : apply_override p n od = .ok p') (m : String) :
    p'.threads.lookup m = none ↔ p.threads.lookup m = none := by
  rcases apply_override_ok_shape p n od p' h with heq | ⟨t', heq⟩
  · rw [heq]
  · rw [heq, lookup_setThread]
    simp

/-- On a bad entry (missing thread, or a class-mismatched fail/success
override value), `apply_override` raises no matter what state it runs in. -/
theorem apply_override_error_of_bad (p : ProcessThreads) (n : String)
    (od : OverridesDict)
    (hbad : p.threads.lookup n = none ∨
      (∃ st, od.fail_override = some st ∧ st.kind ≠ .failStatus) ∨
      (∃ st, od.success_override = some st ∧ st.kind ≠ .successStatus)) :
    ∃ e, apply_override p n od = .error e := by
  rcases hbad with h | ⟨st, hf, hk⟩ | ⟨st, hs, hk⟩
  · exact ⟨_, apply_override_no_thread p n od h⟩
  · cases hl : p.threads.lookup n with
    | none => exact ⟨_, apply_override_no_thread p n od hl⟩
    | some t => exact ⟨_, apply_override_bad_fail p n od st t hl hf hk⟩
  · cases hl : p.threads.lookup n with
    | none => exact ⟨_, apply_override_no_thread p n od hl⟩
    | some t =>
      cases hf : od.fail_override with
      | none =>
        refine ⟨_, apply_override_bad_success p n od st t hl ?_ hs hk⟩
        intro s hs'
        rw [hf] at hs'
        exact Option.noConfusion hs'
      | some stf =>
        by_cases hkf : stf.kind = .failStatus
        · refine ⟨_, apply_override_bad_success p n od st t hl ?_ hs hk⟩
          intro s hs'
          rw [hf] at hs'
          exact (Option.some.inj hs') ▸ hkf
        · exact ⟨_, apply_override_bad_fail p n od stf t hl hf hkf⟩

/-- A raising entry makes the whole `_override_status` loop raise. -/
theorem override_status_cons_error (p : ProcessThreads) (n : String)
    (od : OverridesDict) (rest : List (String × OverridesDict))
    (e : OverrideErr) (h : apply_override p n od = .error e) :
    override_status p ((n, od) :: rest) = .error e := by
  have hc : override_status p ((n, od) :: rest) =
      Except.bind (apply_override p n od) (fun q => override_status q rest) :=
    rfl
  rw [hc, h]
  rfl

/-- A successful entry hands the updated process to the rest of the loop. -/
theorem override_status_cons_ok (p p' : ProcessThreads) (n : String)
    (od : OverridesDict) (rest : List (String × OverridesDict))
    (h : apply_override p n od = .ok p') :
    override_status p ((n, od) :: rest) = override_status p' rest := by
  have hc : override_status p ((n, od) :: rest) =
      Except.bind (apply_override p n od) (fun q => override_status q rest) :=
    rfl
  rw [hc, h]
  rfl

/-- If any entry of the overrides mapping is bad (missing thread name or
class-mismatched value), `_override_status` raises. -/
theorem override_status_error_mem (overrides : List (String × OverridesDict))
    (n : String) (od : OverridesDict) (hmem : (n, od) ∈ overrides) :
    ∀ p : ProcessThreads,
      (p.threads.lookup n = none ∨
        (∃ st, od.fail_override = some st ∧ st.kind ≠ .failStatus) ∨
        (∃ st, od.success_override = some st ∧ st.kind ≠ .successStatus)) →
      ∃ e, override_status p overrides = .error e := by
  induction overrides with
  | nil => exact absurd hmem (List.not_mem_nil (n, od))
  | cons hd rest ih =>
    intro p hbad
    obtain ⟨hn, hod⟩ := hd
    cases happ : apply_override p hn hod with
    | error e => exact ⟨e, override_status_cons_error p hn hod rest e happ⟩
    | ok p' =>
      rcases List.mem_cons.mp hmem with heq | hmem'
      · cases heq
        obtain ⟨e, he⟩ := apply_override_error_of_bad p n od hbad
        rw [happ] at he
        exact Except.noConfusion he
      · have hbad' : p'.threads.lookup n = none ∨
            (∃ st, od.fail_override = some st ∧ st.kind ≠ .failStatus) ∨
            (∃ st, od.success_override = some st ∧ st.kind ≠ .successStatus) := by
          rcases hbad with h | h | h
          · exact Or.inl
              ((apply_override_ok_lookup_none p hn hod p' happ n).mpr h)
          · exact Or.inr (Or.inl h)
          · exact Or.inr (Or.inr h)
        obtain ⟨e, he⟩ := ih hmem' p' hbad'
        exact ⟨e, (override_status_cons_ok p p' hn hod rest happ).trans he⟩

/-- C4: instantiating a Processor's Process applies each status override by
replacing the named Thread's active fail/success status (title and default
statuses untouched); a named Thread attribute missing from the Process, or
an override value under the FailStatus (resp. SuccessStatus) key that is
not a FailStatus (resp. SuccessStatus), raises a fatal configuration error
immediately — and any bad entry anywhere in the overrides mapping makes the
whole `_override_status` pass raise, so an invalid override is never
silently applied. -/
theorem C4_status_override_validation :
    (∀ (p : ProcessThreads) (n : String) (od : OverridesDict),
      p.threads.lookup n = none →
      apply_override p n od = .error (.noThread p.name n)) ∧
    (∀ (p : ProcessThreads) (n : String) (od : OverridesDict) (st : Status)
        (t : Thread), p.threads.lookup n = some t →
      od.fail_override = some st → st.kind ≠ .failStatus →
      apply_override p n od = .error (.badFailOverride p.name n)) ∧
    (∀ (p : ProcessThreads) (n : String) (od : OverridesDict) (st : Status)
        (t : Thread), p.threads.lookup n = some t →
      (∀ stf, od.fail_override = some stf → stf.kind = .failStatus) →
      od.success_override = some st → st.kind ≠ .successStatus →
      apply_override p n od = .error (.badSuccessOverride p.name n)) ∧
    (∀ (p : ProcessThreads) (n : String) (od : OverridesDict) (t : Thread),
      p.threads.lookup n = some t →
      (∀ st, od.fail_override = some st → st.kind = .failStatus) →
      (∀ st, od.success_override = some st → st.kind = .successStatus) →
      (od.fail_override ≠ none ∨ od.success_override ≠ none) →
      apply_override p n od =
        .ok { p with
          threads := setThread p.threads n (overridden_thread t od) }) ∧
    (∀ (p : ProcessThreads) (overrides : List (String × OverridesDict))
        (n : String) (od : OverridesDict), (n, od) ∈ overrides →
      (p.threads.lookup n = none ∨
        (∃ st, od.fail_override = some st ∧ st.kind ≠ .failStatus) ∨
        (∃ st, od.success_override = some st ∧ st.kind ≠ .successStatus)) →
      ∃ e, override_status p overrides = .error e) :=
  ⟨apply_override_no_thread, apply_override_bad_fail,
   apply_override_bad_success, apply_override_applies,
   fun p overrides n od hmem hbad =>
     override_status_error_mem overrides n od hmem p hbad⟩

/-- Witness for C4 at a concrete Process with one thread `thread_a`
(fail `ERROR`, success `SUCCESS`): a `SuccessStatus` under the FailStatus
key raises; a missing thread name raises; a valid `WARNING` fail override
replaces the active fail status while defaults stay untouched; and the
whole `_override_status` pass on the bad mapping raises. -/
theorem C4_witness :
    apply_override
      ⟨"MyProcess", [("thread_a", ⟨"A", ERROR, ERROR, SUCCESS, SUCCESS⟩)]⟩
      "thread_a" ⟨some SUCCESS, none⟩ =
      .error (.badFailOverride "MyProcess" "thread_a") ∧
    apply_override
      ⟨"MyProcess", [("thread_a", ⟨"A", ERROR, ERROR, SUCCESS, SUCCESS⟩)]⟩
      "missing" ⟨some WARNING, none⟩ =
      .error (.noThread "MyProcess" "missing") ∧
    apply_override
      ⟨"MyProcess", [("thread_a", ⟨"A", ERROR, ERROR, SUCCESS, SUCCESS⟩)]⟩
      "thread_a" ⟨some WARNING, none⟩ =
      .ok ⟨"MyProcess", [("thread_a", ⟨"A", ERROR, WARNING, SUCCESS, SUCCESS⟩)]⟩ ∧
    ∃ e, override_status
      ⟨"MyProcess", [("thread_a", ⟨"A", ERROR, ERROR, SUCCESS, SUCCESS⟩)]⟩
      [("thread_a", ⟨some SUCCESS, none⟩)] = .error e := by
  refine ⟨?_, ?_, ?_, ?_⟩
  · exact C4_status_override_validation.2.1
      ⟨"MyProcess", [("thread_a", ⟨"A", ERROR, ERROR, SUCCESS, SUCCESS⟩)]⟩
      "thread_a" ⟨some SUCCESS, none⟩ SUCCESS
      ⟨"A", ERROR, ERROR, SUCCESS, SUCCESS⟩ rfl rfl (by decide)
  · exact C4_status_override_validation.1
      ⟨"MyProcess", [("thread_a", ⟨"A", ERROR, ERROR, SUCCESS, SUCCESS⟩)]⟩
      "missing" ⟨some WARNING, none⟩ rfl
  · exact C4_status_override_validation.2.2.2.1
      ⟨"MyProcess", [("thread_a", ⟨"A", ERROR, ERROR, SUCCESS, SUCCESS⟩)]⟩
      "thread_a" ⟨some WARNING, none⟩
      ⟨"A", ERROR, ERROR, SUCCESS, SUCCESS⟩ rfl
      (by intro st hst; cases hst; rfl)
      (by intro st hst; exact Option.noConfusion hst)
      (Or.inl (by decide))
  · exact C4_status_override_validation.2.2.2.2
      ⟨"MyProcess", [("thread_a", ⟨"A", ERROR, ERROR, SUCCESS, SUCCESS⟩)]⟩
      [("thread_a", ⟨some SUCCESS, none⟩)] "thread_a" ⟨some SUCCESS, none⟩
      (List.mem_singleton.mpr rfl)
      (Or.inr (Or.inl ⟨SUCCESS, rfl, by decide⟩))
